import Mathlib

/-!
# RBAC_FastAPI — verification of the RBAC authorization engine

Shallow embedding of the core of the `Esmien/RBAC_FastAPI` repository:
the data model (`app/models/rbac.py`, plus the `User`/`Role` records whose
declaration module `app/models/users.py` is not present in the tree and is
therefore reconstructed from the spec's data model and from every use in the
present modules), the permission check (`app/api/deps.py`), business-element
creation (`app/api/business_elements.py`), baseline provisioning
(`app/database/init_db.py`) and credential checking / login
(`app/core/security.py`, `app/api/auth.py`).

Database tables are embedded as lists of records; SQLAlchemy `select ... where`
queries become `List.filter`, and `Result.scalar_one_or_none()` becomes a
three-way discriminator (`empty` / `one` / `multiple`, the last standing for
the raised `MultipleResultsFound`).  Raised `HTTPException`s become explicit
result constructors carrying the status code and the exact detail string of
the source.
-/

namespace RBAC

/-- `Role` row (`app/models/users.py`, absent from the tree).
Modelled from the spec: §3 gives `id` and a unique `name`; every present use
(`role.id`, `role.name`) is covered. -/
structure Role where
  id : Int
  name : String
deriving DecidableEq, Repr

/-- `User` row (`app/models/users.py`, absent from the tree).
Modelled from the spec: §3 gives integer `id`, unique `email`, opaque password
hash, display fields, the `is_active` soft-delete flag and a non-null role
reference; the fields below are exactly those the present modules read or
write (further display fields carry no logic and are omitted). -/
structure User where
  id : Int
  email : String
  hashed_password : String
  name : String
  is_active : Bool
  role_id : Int
deriving DecidableEq, Repr

/-- `BusinessElement` row (`app/models/rbac.py`). -/
structure BusinessElement where
  id : Int
  name : String
deriving DecidableEq, Repr

/-- `AccessRule` row (`app/models/rbac.py`): surrogate id, the two foreign
keys and the seven independent permission flags. -/
structure AccessRule where
  id : Int
  business_element_id : Int
  role_id : Int
  read_permission : Bool
  read_all_permission : Bool
  create_permission : Bool
  update_permission : Bool
  update_all_permission : Bool
  delete_permission : Bool
  delete_all_permission : Bool
deriving DecidableEq, Repr

/-- The persisted database state: the four tables of §6. -/
structure DB where
  roles : List Role
  users : List User
  business_elements : List BusinessElement
  access_rules : List AccessRule
deriving DecidableEq, Repr

/-- Result of SQLAlchemy `Result.scalar_one_or_none()`: `None` on an empty
result, the row on a singleton, and a raised `MultipleResultsFound`
otherwise. -/
inductive ScalarResult (α : Type) where
  | empty : ScalarResult α
  | one : α → ScalarResult α
  | multiple : ScalarResult α
deriving DecidableEq, Repr

def scalar_one_or_none {α : Type} : List α → ScalarResult α
  | [] => .empty
  | [a] => .one a
  | _ :: _ :: _ => .multiple

theorem scalar_one_or_none_eq_one {α : Type} {l : List α} {a : α}
    (h : scalar_one_or_none l = .one a) : l = [a] := by
  match l with
  | [] => simp [scalar_one_or_none] at h
  | [x] => simp [scalar_one_or_none] at h; simp [h]
  | x :: y :: rest => simp [scalar_one_or_none] at h

theorem scalar_one_or_none_eq_empty {α : Type} {l : List α}
    (h : scalar_one_or_none l = .empty) : l = [] := by
  match l with
  | [] => rfl
  | [x] => simp [scalar_one_or_none] at h
  | x :: y :: rest => simp [scalar_one_or_none] at h

/-- A Python attribute value as far as the permission check observes it:
the mapped columns of `AccessRule` are booleans and integers. -/
inductive PyValue where
  | pyBool : Bool → PyValue
  | pyInt : Int → PyValue
deriving DecidableEq, Repr

/-- Python truthiness (`if not permission_value`). -/
def truthy : PyValue → Bool
  | .pyBool b => b
  | .pyInt n => n != 0

/-- `getattr(rule, name)` over the mapped column attributes of the
`AccessRule` ORM class (`app/models/rbac.py`): the surrogate id, the two
foreign keys and the seven flags.  `none` stands for a raised
`AttributeError`; Python attributes outside the mapped columns (relationship
and dunder attributes) are outside this model. -/
def AccessRule.getattr (r : AccessRule) (name : String) : Option PyValue :=
  if name = "id" then some (.pyInt r.id)
  else if name = "business_element_id" then some (.pyInt r.business_element_id)
  else if name = "role_id" then some (.pyInt r.role_id)
  else if name = "read_permission" then some (.pyBool r.read_permission)
  else if name = "read_all_permission" then some (.pyBool r.read_all_permission)
  else if name = "create_permission" then some (.pyBool r.create_permission)
  else if name = "update_permission" then some (.pyBool r.update_permission)
  else if name = "update_all_permission" then some (.pyBool r.update_all_permission)
  else if name = "delete_permission" then some (.pyBool r.delete_permission)
  else if name = "delete_all_permission" then some (.pyBool r.delete_all_permission)
  else none

/-- The joined query of `PermissionChecker.__call__` (`app/api/deps.py`):
`select(AccessRule).join(BusinessElement).where(AccessRule.role_id ==
user.role_id, BusinessElement.name == self.business_element)` — the rules of
the given role whose element foreign key resolves to an element with the
given name (element ids are primary keys, so the join matches each rule with
at most one element). -/
def permission_rule_query (db : DB) (role_id : Int) (business_element : String) :
    List AccessRule :=
  db.access_rules.filter (fun r =>
    r.role_id == role_id &&
    db.business_elements.any (fun e =>
      e.id == r.business_element_id && e.name == business_element))

/-- Outcome of `PermissionChecker.__call__`: the user is returned (allow),
an `HTTPException(403, detail)` is raised, an `AttributeError` escapes from
`getattr`, or `scalar_one_or_none` raises `MultipleResultsFound`. -/
inductive CheckResult where
  | allowed : User → CheckResult
  | forbidden : String → CheckResult
  | attributeError : String → CheckResult
  | multipleResults : CheckResult
deriving DecidableEq, Repr

/-- `PermissionChecker.__call__` (`app/api/deps.py` lines 124-167): run the
joined query, 403 `"Права доступа не найдены"` when no row is found, then
read the named flag with `getattr` and 403
`"У вас нет прав на выполнение этого действия"` when it is falsy. -/
def permission_checker_call (db : DB) (business_element permission : String)
    (user : User) : CheckResult :=
  match scalar_one_or_none (permission_rule_query db user.role_id business_element) with
  | .multiple => .multipleResults
  | .empty => .forbidden "Права доступа не найдены"
  | .one rule =>
    match rule.getattr permission with
    | none => .attributeError permission
    | some v =>
      if truthy v then .allowed user
      else .forbidden "У вас нет прав на выполнение этого действия"

/-- The seven permission flags of §3. -/
inductive PermFlag where
  | readP | readAllP | createP | updateP | updateAllP | deleteP | deleteAllP
deriving DecidableEq, Repr

/-- The Python attribute name of each flag. -/
def PermFlag.attrName : PermFlag → String
  | .readP => "read_permission"
  | .readAllP => "read_all_permission"
  | .createP => "create_permission"
  | .updateP => "update_permission"
  | .updateAllP => "update_all_permission"
  | .deleteP => "delete_permission"
  | .deleteAllP => "delete_all_permission"

/-- The stored boolean value of a flag on a rule. -/
def AccessRule.flagValue (r : AccessRule) : PermFlag → Bool
  | .readP => r.read_permission
  | .readAllP => r.read_all_permission
  | .createP => r.create_permission
  | .updateP => r.update_permission
  | .updateAllP => r.update_all_permission
  | .deleteP => r.delete_permission
  | .deleteAllP => r.delete_all_permission

theorem getattr_flag (r : AccessRule) (f : PermFlag) :
    r.getattr f.attrName = some (.pyBool (r.flagValue f)) := by
  cases f <;> rfl

theorem permission_rule_query_eq_nil_of_no_rule (db : DB) (role_id : Int)
    (ename : String)
    (h : ∀ r ∈ db.access_rules, r.role_id = role_id →
      ∀ e ∈ db.business_elements, e.id = r.business_element_id → e.name ≠ ename) :
    permission_rule_query db role_id ename = [] := by
  apply List.filter_eq_nil_iff.mpr
  intro r hr hp
  simp only [Bool.and_eq_true, beq_iff_eq, List.any_eq_true] at hp
  obtain ⟨hrole, e, he, hid, hename⟩ := hp
  exact h r hr hrole e he hid hename

/-- C1: for every (role, business-element) pair with no `AccessRule` row, the
`PermissionChecker` denies (403, `"Права доступа не найдены"`) for every
permission name — absence of a rule is deny-by-default, never allow. -/
theorem deny_by_default (db : DB) (user : User) (ename perm : String)
    (h : ∀ r ∈ db.access_rules, r.role_id = user.role_id →
      ∀ e ∈ db.business_elements, e.id = r.business_element_id → e.name ≠ ename) :
    permission_checker_call db ename perm user =
      .forbidden "Права доступа не найдены" := by
  unfold permission_checker_call
  rw [permission_rule_query_eq_nil_of_no_rule db user.role_id ename h]
  rfl

/-- Witness for C1: element `"reports"` has no rule for any role, and even a
role holding an all-true rule on another element is denied on it. -/
theorem deny_by_default_witness :
    permission_checker_call
      ⟨[⟨1, "admin"⟩], [], [⟨1, "users"⟩, ⟨2, "reports"⟩],
       [⟨1, 1, 1, true, true, true, true, true, true, true⟩]⟩
      "reports" "read_permission" ⟨1, "admin@admin.com", "h", "Admin", true, 1⟩
      = .forbidden "Права доступа не найдены" :=
  deny_by_default _ _ _ _ (by decide)

/-- C2: when the joined query returns exactly one rule, the outcome of the
check on any of the seven flag names is exactly the stored value of that
flag — true gives the user back, false gives the 403 — with no dependence on
the other six flags. -/
theorem flag_fidelity (db : DB) (user : User) (rule : AccessRule)
    (ename : String) (f : PermFlag)
    (h : permission_rule_query db user.role_id ename = [rule]) :
    permission_checker_call db ename f.attrName user =
      if rule.flagValue f then .allowed user
      else .forbidden "У вас нет прав на выполнение этого действия" := by
  unfold permission_checker_call
  rw [h]
  simp only [scalar_one_or_none, getattr_flag, truthy]

/-- Witness for C2: role `"user"` holds `{read: true, rest: false}` on
element `"users"`; the read check returns the user. -/
theorem flag_fidelity_witness :
    permission_checker_call
      ⟨[⟨1, "user"⟩], [], [⟨1, "users"⟩],
       [⟨1, 1, 1, true, false, false, false, false, false, false⟩]⟩
      "users" "read_permission" ⟨2, "u@u.com", "h", "U", true, 1⟩
      = .allowed ⟨2, "u@u.com", "h", "U", true, 1⟩ := by
  have h := flag_fidelity
    ⟨[⟨1, "user"⟩], [], [⟨1, "users"⟩],
     [⟨1, 1, 1, true, false, false, false, false, false, false⟩]⟩
    ⟨2, "u@u.com", "h", "U", true, 1⟩
    ⟨1, 1, 1, true, false, false, false, false, false, false⟩
    "users" .readP (by decide)
  simpa using h

/-- C4 counterexample: "element does not exist" (left database, no element at
all) and "element exists but no rule for the pair" (right database) produce
the very same result — the same 403 with the same detail string — so the two
failures are not reported with different internal diagnostic detail. -/
theorem element_vs_rule_missing_cex :
    permission_checker_call ⟨[⟨1, "admin"⟩], [], [], []⟩ "reports"
        "read_permission" ⟨1, "a@a.com", "h", "A", true, 1⟩
      = permission_checker_call ⟨[⟨1, "admin"⟩], [], [⟨1, "reports"⟩], []⟩
        "reports" "read_permission" ⟨1, "a@a.com", "h", "A", true, 1⟩
    ∧ permission_checker_call ⟨[⟨1, "admin"⟩], [], [], []⟩ "reports"
        "read_permission" ⟨1, "a@a.com", "h", "A", true, 1⟩
      = .forbidden "Права доступа не найдены" := by
  constructor <;> rfl

/-- C4 (amended): the single joined query collapses both failure kinds; a
missing element and a missing rule are surfaced as one and the same 403 with
the identical detail string, with no distinguishing internal diagnostic. -/
theorem element_or_rule_missing_same_detail (db1 db2 : DB) (u1 u2 : User)
    (ename p1 p2 : String)
    (h1 : ∀ e ∈ db1.business_elements, e.name ≠ ename)
    (h2 : permission_rule_query db2 u2.role_id ename = []) :
    permission_checker_call db1 ename p1 u1
      = permission_checker_call db2 ename p2 u2
    ∧ permission_checker_call db1 ename p1 u1
      = .forbidden "Права доступа не найдены" := by
  have hq1 : permission_rule_query db1 u1.role_id ename = [] := by
    apply permission_rule_query_eq_nil_of_no_rule
    intro r _ _ e he _
    exact h1 e he
  constructor
  · unfold permission_checker_call
    rw [hq1, h2]
    rfl
  · unfold permission_checker_call
    rw [hq1]
    rfl

/-- Witness for C4 (amended): concrete element-missing and rule-missing
databases decided through the amended theorem. -/
theorem element_or_rule_missing_same_detail_witness :
    permission_checker_call ⟨[⟨1, "x"⟩], [], [], []⟩ "inv" "read_permission"
        ⟨1, "a@a.com", "h", "A", true, 1⟩
      = permission_checker_call ⟨[⟨1, "x"⟩], [], [⟨1, "inv"⟩], []⟩ "inv"
        "delete_permission" ⟨2, "b@b.com", "h", "B", true, 1⟩ :=
  (element_or_rule_missing_same_detail
    ⟨[⟨1, "x"⟩], [], [], []⟩ ⟨[⟨1, "x"⟩], [], [⟨1, "inv"⟩], []⟩
    ⟨1, "a@a.com", "h", "A", true, 1⟩ ⟨2, "b@b.com", "h", "B", true, 1⟩
    "inv" "read_permission" "delete_permission" (by decide) (by decide)).1

/-- C6 counterexample: the permission name `"id"` is not one of the seven
flags, all seven flags of the stored rule are false, and yet the check
returns the user (allow): `getattr` reads the nonzero surrogate id, and
Python truthiness lets it through — no loud failure. -/
theorem unknown_permission_name_allows_cex :
    permission_checker_call
      ⟨[⟨1, "user"⟩], [], [⟨1, "users"⟩],
       [⟨1, 1, 1, false, false, false, false, false, false, false⟩]⟩
      "users" "id" ⟨2, "u@u.com", "h", "U", true, 1⟩
      = .allowed ⟨2, "u@u.com", "h", "U", true, 1⟩ := by
  rfl

/-- C6 (amended): the loud failure (`AttributeError`) occurs exactly for
permission names that are not attributes of the rule at all, and none of the
seven flag names can reach that branch; a non-flag mapped column name (such
as `"id"`, see the counterexample) is instead evaluated by truthiness. -/
theorem unknown_permission_loud_failure (db : DB) (user : User)
    (rule : AccessRule) (ename name : String)
    (h : permission_rule_query db user.role_id ename = [rule]) :
    (rule.getattr name = none →
      permission_checker_call db ename name user = .attributeError name)
    ∧ ∀ f : PermFlag, rule.getattr f.attrName ≠ none := by
  constructor
  · intro hn
    unfold permission_checker_call
    rw [h]
    simp only [scalar_one_or_none, hn]
  · intro f
    rw [getattr_flag]
    exact Option.some_ne_none _

/-- Witness for C6 (amended): a name that is no attribute of `AccessRule`
raises `AttributeError` out of the check. -/
theorem unknown_permission_loud_failure_witness :
    permission_checker_call
      ⟨[⟨1, "user"⟩], [], [⟨1, "users"⟩],
       [⟨1, 1, 1, true, true, true, true, true, true, true⟩]⟩
      "users" "frobnicate" ⟨2, "u@u.com", "h", "U", true, 1⟩
      = .attributeError "frobnicate" :=
  (unknown_permission_loud_failure
    ⟨[⟨1, "user"⟩], [], [⟨1, "users"⟩],
     [⟨1, 1, 1, true, true, true, true, true, true, true⟩]⟩
    ⟨2, "u@u.com", "h", "U", true, 1⟩
    ⟨1, 1, 1, true, true, true, true, true, true, true⟩
    "users" "frobnicate" (by decide)).1 (by decide)

/-! ## Identity resolution (`get_current_user`, `app/api/deps.py`) -/

/-- What `jwt.decode(token, SECRET_KEY, algorithms=[ALGORITHM])` yields for a
given token, as observed by `get_current_user`: either a raised `JWTError`
(missing/malformed/expired/bad-signature token, or a non-string `sub`, which
python-jose rejects during claim validation), or the verified payload of
which only `payload.get("sub", None)` is read. -/
inductive TokenDecode where
  | jwtError : TokenDecode
  | payload : Option String → TokenDecode
deriving DecidableEq, Repr

/-- Decimal value of a digit list. -/
def decimal_value (l : List Char) : Nat :=
  l.foldl (fun acc c => acc * 10 + (c.toNat - 48)) 0

/-- Python `int(s)` on a string: surrounding whitespace stripped, optional
sign, then decimal digits; anything else raises `ValueError` (`none`).
Digit-group underscores are not modelled — no claim depends on them. -/
def python_int_of_string (s : String) : Option Int :=
  let t := ((s.data.dropWhile Char.isWhitespace).reverse.dropWhile
    Char.isWhitespace).reverse
  let signed : Bool × List Char :=
    match t with
    | '-' :: rest => (true, rest)
    | '+' :: rest => (false, rest)
    | other => (false, other)
  if signed.2.isEmpty then none
  else if signed.2.all Char.isDigit then
    some (if signed.1 then -(decimal_value signed.2 : Int)
          else (decimal_value signed.2 : Int))
  else none

/-- Outcome of `get_current_user`: the resolved user, a raised
`HTTPException(code, detail)`, an uncaught `ValueError` escaping from
`int(user_id)` (the `try` block of the source ends before that call), or a
raised `MultipleResultsFound`. -/
inductive AuthResult where
  | ok : User → AuthResult
  | httpError : Nat → String → AuthResult
  | valueError : String → AuthResult
  | dbError : AuthResult
deriving DecidableEq, Repr

/-- `get_current_user` (`app/api/deps.py` lines 16-57): decode the token
(`JWTError` and a missing `sub` raise the one `credentials_exception`,
401 `"Ошибка валидации токена"`), convert the subject with `int(user_id)`
— outside the `try`, so a non-numeric subject raises `ValueError` — then
look the user up by id and raise the same `credentials_exception` when the
user is absent or `is_active` is false. -/
def get_current_user (db : DB) (tok : TokenDecode) : AuthResult :=
  match tok with
  | .jwtError => .httpError 401 "Ошибка валидации токена"
  | .payload none => .httpError 401 "Ошибка валидации токена"
  | .payload (some user_id) =>
    match python_int_of_string user_id with
    | none => .valueError user_id
    | some uid =>
      match scalar_one_or_none (db.users.filter (fun u => u.id == uid)) with
      | .multiple => .dbError
      | .empty => .httpError 401 "Ошибка валидации токена"
      | .one user =>
        if user.is_active then .ok user
        else .httpError 401 "Ошибка валидации токена"

/-- C3: malformed token, missing subject, nonexistent user and inactive user
all collapse to the one 401 with the one fixed message — but a verified
token whose subject is a non-numeric string escapes as an uncaught
`ValueError` (HTTP 500), a fifth, distinguishable outcome: `int(user_id)`
at `app/api/deps.py` line 49 sits outside the `try` block. -/
theorem identity_collapse_and_nonnumeric_sub_bug :
    (get_current_user ⟨[⟨1, "user"⟩], [⟨7, "i@i.com", "h", "I", false, 1⟩], [], []⟩
        .jwtError = .httpError 401 "Ошибка валидации токена")
    ∧ (get_current_user ⟨[⟨1, "user"⟩], [⟨7, "i@i.com", "h", "I", false, 1⟩], [], []⟩
        (.payload none) = .httpError 401 "Ошибка валидации токена")
    ∧ (get_current_user ⟨[⟨1, "user"⟩], [⟨7, "i@i.com", "h", "I", false, 1⟩], [], []⟩
        (.payload (some "99")) = .httpError 401 "Ошибка валидации токена")
    ∧ (get_current_user ⟨[⟨1, "user"⟩], [⟨7, "i@i.com", "h", "I", false, 1⟩], [], []⟩
        (.payload (some "7")) = .httpError 401 "Ошибка валидации токена")
    ∧ (get_current_user ⟨[⟨1, "user"⟩], [⟨7, "i@i.com", "h", "I", false, 1⟩], [], []⟩
        (.payload (some "abc")) = .valueError "abc") :=
  ⟨rfl, rfl, rfl, rfl, rfl⟩

/-- C5: a missing subject claim is rejected with the 401, but a present,
non-numeric subject on a verified token raises `ValueError` out of
`int(user_id)` instead of the `InvalidToken` outcome. -/
theorem subject_parse_valueerror_bug :
    (get_current_user ⟨[], [⟨3, "a@a.com", "h", "A", true, 1⟩], [], []⟩
        (.payload none) = .httpError 401 "Ошибка валидации токена")
    ∧ (get_current_user ⟨[], [⟨3, "a@a.com", "h", "A", true, 1⟩], [], []⟩
        (.payload (some "x7")) = .valueError "x7") :=
  ⟨rfl, rfl⟩

/-! ## Credential check and login (`app/core/security.py`, `app/api/auth.py`) -/

/-- Outcome of `check_users_creds`. -/
inductive CredsResult where
  | ok : User → CredsResult
  | httpError : Nat → String → CredsResult
  | dbError : CredsResult
deriving DecidableEq, Repr

/-- `check_users_creds` (`app/core/security.py` lines 101-133): look the user
up by email; when the user is absent or `verify_password` (external bcrypt
check, passed in as `verify`) rejects, raise the one
`HTTPException(401, "Неверный логин или пароль")`. -/
def check_users_creds (db : DB) (email password : String)
    (verify : String → String → Bool) : CredsResult :=
  match scalar_one_or_none (db.users.filter (fun u => u.email == email)) with
  | .multiple => .dbError
  | .empty => .httpError 401 "Неверный логин или пароль"
  | .one user =>
    if verify password user.hashed_password then .ok user
    else .httpError 401 "Неверный логин или пароль"

/-- Outcome of the `login` route; a successful login issues a token whose
subject is `str(user.id)`, modelled by the carried id. -/
inductive LoginResult where
  | token : Int → LoginResult
  | httpError : Nat → String → LoginResult
  | dbError : LoginResult
deriving DecidableEq, Repr

/-- `login` (`app/api/auth.py` lines 125-153): check the credentials, reject
an inactive user with 401 `"Пользователь не активен"`, else issue the token
for `str(user.id)`. -/
def login (db : DB) (email password : String)
    (verify : String → String → Bool) : LoginResult :=
  match check_users_creds db email password verify with
  | .dbError => .dbError
  | .httpError c d => .httpError c d
  | .ok user =>
    if user.is_active then .token user.id
    else .httpError 401 "Пользователь не активен"

/-- C10: a login attempt with an email matching no user and one with an
existing email but a rejected password fail with the identical response —
the same 401 and the same message — so the response does not reveal which
cause applied. -/
theorem login_no_account_leak (db : DB) (e1 p1 e2 p2 : String) (u : User)
    (verify : String → String → Bool)
    (h1 : db.users.filter (fun x => x.email == e1) = [])
    (h2 : db.users.filter (fun x => x.email == e2) = [u])
    (h3 : verify p2 u.hashed_password = false) :
    login db e1 p1 verify = login db e2 p2 verify
    ∧ login db e1 p1 verify = .httpError 401 "Неверный логин или пароль" := by
  unfold login check_users_creds
  rw [h1, h2]
  simp [scalar_one_or_none, h3]

/-- Witness for C10: a database with one user; an unknown email and the
known email with a rejected password give the same failure. -/
theorem login_no_account_leak_witness :
    login ⟨[⟨1, "user"⟩], [⟨4, "known@x.com", "hash", "K", true, 1⟩], [], []⟩
        "ghost@x.com" "pw1" (fun _ _ => false)
      = login ⟨[⟨1, "user"⟩], [⟨4, "known@x.com", "hash", "K", true, 1⟩], [], []⟩
        "known@x.com" "pw2" (fun _ _ => false) :=
  (login_no_account_leak
    ⟨[⟨1, "user"⟩], [⟨4, "known@x.com", "hash", "K", true, 1⟩], [], []⟩
    "ghost@x.com" "pw1" "known@x.com" "pw2"
    ⟨4, "known@x.com", "hash", "K", true, 1⟩
    (fun _ _ => false) (by decide) (by decide) rfl).1

/-! ## Business-element creation (`app/api/business_elements.py`) -/

/-- Largest element id in the table (0 when empty); a flushed insert is
modelled as receiving the next serial id. -/
def max_element_id (db : DB) : Int :=
  db.business_elements.foldl (fun m e => max m e.id) 0

/-- Largest access-rule id in the table (0 when empty). -/
def max_rule_id (db : DB) : Int :=
  db.access_rules.foldl (fun m r => max m r.id) 0

/-- The rule built inside the fan-out loop of `create_business_element`:
`is_admin = role.name == "admin"`, and every one of the seven flags is
`is_admin`. -/
def default_rule (elem_id rule_id : Int) (role : Role) : AccessRule :=
  let is_admin := role.name == "admin"
  { id := rule_id, business_element_id := elem_id, role_id := role.id,
    read_permission := is_admin, read_all_permission := is_admin,
    create_permission := is_admin, update_permission := is_admin,
    update_all_permission := is_admin, delete_permission := is_admin,
    delete_all_permission := is_admin }

/-- The fan-out loop `for role in roles: session.add(AccessRule(...))` —
one rule per existing role, in table order, with consecutive serial ids. -/
def default_rules (elem_id : Int) (base : Int) : List Role → List AccessRule
  | [] => []
  | role :: rest =>
    default_rule elem_id (base + 1) role :: default_rules elem_id (base + 1) rest

/-- Outcome of the `create_business_element` route. -/
inductive CreateElementResult where
  | conflict : CreateElementResult
  | dbError : CreateElementResult
  | created : DB → BusinessElement → CreateElementResult
deriving DecidableEq, Repr

/-- `create_business_element` (`app/api/business_elements.py` lines 18-73):
reject a duplicate name with 400, otherwise insert the element, then one
default `AccessRule` per existing role (all seven flags equal to
`role.name == "admin"`), and commit. -/
def create_business_element (db : DB) (name : String) : CreateElementResult :=
  match scalar_one_or_none (db.business_elements.filter (fun e => e.name == name)) with
  | .multiple => .dbError
  | .one _ => .conflict
  | .empty =>
    let new_element : BusinessElement := { id := max_element_id db + 1, name := name }
    let new_rules := default_rules new_element.id (max_rule_id db) db.roles
    .created
      { db with business_elements := db.business_elements ++ [new_element],
                access_rules := db.access_rules ++ new_rules }
      new_element

/-- The seven flags of a rule all equal `b`. -/
def AccessRule.allFlags (r : AccessRule) (b : Bool) : Prop :=
  r.read_permission = b ∧ r.read_all_permission = b ∧ r.create_permission = b ∧
  r.update_permission = b ∧ r.update_all_permission = b ∧
  r.delete_permission = b ∧ r.delete_all_permission = b

theorem default_rule_allFlags (elem_id rule_id : Int) (role : Role) :
    (default_rule elem_id rule_id role).allFlags (role.name == "admin") :=
  ⟨rfl, rfl, rfl, rfl, rfl, rfl, rfl⟩

theorem default_rules_forall₂ (elem_id : Int) (roles : List Role) (base : Int) :
    List.Forall₂ (fun (role : Role) (rule : AccessRule) =>
        rule.role_id = role.id ∧ rule.business_element_id = elem_id ∧
        rule.allFlags (role.name == "admin"))
      roles (default_rules elem_id base roles) := by
  induction roles generalizing base with
  | nil => exact .nil
  | cons role rest ih =>
    exact .cons ⟨rfl, rfl, default_rule_allFlags _ _ _⟩ (ih _)

/-- C7: creating a new business element while `N` roles exist appends
exactly one new `AccessRule` row per existing role — `N` rows total, each
referencing its role and the new element, with all seven flags true exactly
for roles named `"admin"` and all seven false for every other role. -/
theorem create_element_fanout (db : DB) (name : String)
    (h : db.business_elements.filter (fun e => e.name == name) = []) :
    ∃ e new_rules,
      create_business_element db name = .created
        { db with business_elements := db.business_elements ++ [e],
                  access_rules := db.access_rules ++ new_rules } e
      ∧ e.name = name
      ∧ new_rules.length = db.roles.length
      ∧ List.Forall₂ (fun (role : Role) (rule : AccessRule) =>
          rule.role_id = role.id ∧ rule.business_element_id = e.id ∧
          (role.name = "admin" → rule.allFlags true) ∧
          (role.name ≠ "admin" → rule.allFlags false))
        db.roles new_rules := by
  refine ⟨{ id := max_element_id db + 1, name := name },
    default_rules (max_element_id db + 1) (max_rule_id db) db.roles, ?_, rfl, ?_, ?_⟩
  · unfold create_business_element
    rw [h]
    rfl
  · exact ((default_rules_forall₂ _ db.roles _).length_eq).symm
  · refine (default_rules_forall₂ (max_element_id db + 1) db.roles
      (max_rule_id db)).imp ?_
    intro role rule hr
    obtain ⟨h1, h2, h3⟩ := hr
    refine ⟨h1, h2, ?_, ?_⟩
    · intro ha
      simpa [ha] using h3
    · intro ha
      have hb : (role.name == "admin") = false := by
        simpa using ha
      simpa [hb] using h3

/-- Witness for C7: element `"invoices"` created while roles
`{admin, manager, user}` exist yields exactly 3 new rules, admin's all true,
the others all false. -/
theorem create_element_fanout_witness :
    ∃ e new_rules,
      create_business_element
        ⟨[⟨1, "admin"⟩, ⟨2, "manager"⟩, ⟨3, "user"⟩], [], [⟨1, "users"⟩], []⟩
        "invoices" = .created
        { roles := [⟨1, "admin"⟩, ⟨2, "manager"⟩, ⟨3, "user"⟩], users := [],
          business_elements := [⟨1, "users"⟩] ++ [e],
          access_rules := [] ++ new_rules } e
      ∧ e.name = "invoices"
      ∧ new_rules.length = 3
      ∧ List.Forall₂ (fun (role : Role) (rule : AccessRule) =>
          rule.role_id = role.id ∧ rule.business_element_id = e.id ∧
          (role.name = "admin" → rule.allFlags true) ∧
          (role.name ≠ "admin" → rule.allFlags false))
        [⟨1, "admin"⟩, ⟨2, "manager"⟩, ⟨3, "user"⟩] new_rules :=
  create_element_fanout
    ⟨[⟨1, "admin"⟩, ⟨2, "manager"⟩, ⟨3, "user"⟩], [], [⟨1, "users"⟩], []⟩
    "invoices" (by decide)

/-! ## Atomicity of element creation (C8)

The route runs inside one SQLAlchemy session obtained from `get_session`:
writes are buffered in the session/transaction (`add`, `flush`) and reach
the persisted state only at `commit`; an exception anywhere discards the
session and rolls the open transaction back.  The route body is embedded as
the list of session operations it issues, and an executor that applies a
prefix of them (the first unexecuted operation being the one that raised). -/

/-- A session operation issued by `create_business_element`. -/
inductive SessionOp where
  | addElement : BusinessElement → SessionOp
  | addRule : AccessRule → SessionOp
  | flushOp : SessionOp
  | commitOp : SessionOp
deriving DecidableEq, Repr

/-- Session state: the committed database and the in-transaction view. -/
structure SessionState where
  persisted : DB
  tx : DB
deriving DecidableEq, Repr

/-- Effect of one session operation: `add` buffers into the transaction
view, `flush` sends the buffered rows inside the still-open transaction
(no externally visible effect), `commit` makes the transaction view the
persisted state. -/
def apply_op (s : SessionState) : SessionOp → SessionState
  | .addElement e =>
    { s with tx := { s.tx with business_elements := s.tx.business_elements ++ [e] } }
  | .addRule r =>
    { s with tx := { s.tx with access_rules := s.tx.access_rules ++ [r] } }
  | .flushOp => s
  | .commitOp => { s with persisted := s.tx }

/-- The session operations issued by the success path of
`create_business_element` (`app/api/business_elements.py` lines 44-71):
add the element, flush, add one default rule per role, and a single final
commit. -/
def create_element_ops (db : DB) (name : String) : List SessionOp :=
  let new_element : BusinessElement := { id := max_element_id db + 1, name := name }
  [.addElement new_element, .flushOp] ++
    (default_rules new_element.id (max_rule_id db) db.roles).map .addRule ++
    [.commitOp]

/-- Persisted state after executing only the first `k` operations (the
`k`-th, 0-based, raised; the session is then discarded and the open
transaction rolled back). -/
def run_ops_until (db : DB) (ops : List SessionOp) (k : Nat) : DB :=
  ((ops.take k).foldl apply_op { persisted := db, tx := db }).persisted

theorem persisted_unchanged_without_commit (ops : List SessionOp) :
    ∀ s : SessionState, (∀ op ∈ ops, op ≠ .commitOp) →
      (ops.foldl apply_op s).persisted = s.persisted := by
  induction ops with
  | nil => intro s _; rfl
  | cons op rest ih =>
    intro s h
    rw [List.foldl_cons, ih _ (fun o ho => h o (List.mem_cons_of_mem _ ho))]
    have hop := h op (List.mem_cons_self _ _)
    cases op with
    | addElement e => rfl
    | addRule r => rfl
    | flushOp => rfl
    | commitOp => exact absurd rfl hop

/-- C8: the only `commit` of the route is its final operation, so a failure
at any operation strictly before completion — any rule insert of the
fan-out, or the commit itself — leaves the persisted state exactly as it
was: no orphaned element and no orphaned rules. -/
theorem create_element_atomic (db : DB) (name : String) (k : Nat)
    (hk : k < (create_element_ops db name).length) :
    run_ops_until db (create_element_ops db name) k = db := by
  unfold run_ops_until
  have hsplit : create_element_ops db name =
      ([SessionOp.addElement ⟨max_element_id db + 1, name⟩, .flushOp] ++
        (default_rules (max_element_id db + 1) (max_rule_id db) db.roles).map .addRule)
      ++ [.commitOp] := by
    simp [create_element_ops]
  set front := [SessionOp.addElement ⟨max_element_id db + 1, name⟩, .flushOp] ++
    (default_rules (max_element_id db + 1) (max_rule_id db) db.roles).map .addRule with hfront
  have hlen : (create_element_ops db name).length = front.length + 1 := by
    rw [hsplit]; simp
  have hk' : k ≤ front.length := by omega
  have htake : (create_element_ops db name).take k = front.take k := by
    rw [hsplit, List.take_append_of_le_length hk']
  rw [htake]
  apply persisted_unchanged_without_commit
  intro op hop
  have hmem : op ∈ front := List.mem_of_mem_take hop
  rw [hfront] at hmem
  rcases List.mem_append.mp hmem with hmem | hmem
  · have h2 : op = SessionOp.addElement ⟨max_element_id db + 1, name⟩ ∨
        op = SessionOp.flushOp := by simpa using hmem
    rcases h2 with rfl | rfl <;> simp
  · obtain ⟨r, _, hr⟩ := List.mem_map.mp hmem
    exact fun hc => by rw [hc] at hr; cases hr

/-- Witness for C8: with three roles, a failure while inserting the third
default rule leaves the database untouched. -/
theorem create_element_atomic_witness :
    run_ops_until
      ⟨[⟨1, "admin"⟩, ⟨2, "manager"⟩, ⟨3, "user"⟩], [], [⟨1, "users"⟩], []⟩
      (create_element_ops
        ⟨[⟨1, "admin"⟩, ⟨2, "manager"⟩, ⟨3, "user"⟩], [], [⟨1, "users"⟩], []⟩
        "invoices") 4
      = ⟨[⟨1, "admin"⟩, ⟨2, "manager"⟩, ⟨3, "user"⟩], [], [⟨1, "users"⟩], []⟩ :=
  create_element_atomic
    ⟨[⟨1, "admin"⟩, ⟨2, "manager"⟩, ⟨3, "user"⟩], [], [⟨1, "users"⟩], []⟩
    "invoices" 4 (by decide)

/-- Coherence of the two embeddings of the route: executing the whole
operation list commits exactly the database that `create_business_element`
returns. -/
theorem create_element_ops_complete (db : DB) (name : String) (e : BusinessElement)
    (db' : DB) (h : create_business_element db name = .created db' e) :
    run_ops_until db (create_element_ops db name)
      (create_element_ops db name).length = db' := by
  have hq : ∃ l, db.business_elements.filter (fun x => x.name == name) = l ∧
      scalar_one_or_none l = .empty := by
    unfold create_business_element at h
    rcases hs : scalar_one_or_none (db.business_elements.filter (fun x => x.name == name)) with
      _ | a | _ <;> rw [hs] at h
    · exact ⟨_, rfl, hs⟩
    · cases h
    · cases h
  obtain ⟨l, hl, hsc⟩ := hq
  have hdb' : db' = { db with
      business_elements := db.business_elements ++ [⟨max_element_id db + 1, name⟩],
      access_rules := db.access_rules ++
        default_rules (max_element_id db + 1) (max_rule_id db) db.roles } := by
    unfold create_business_element at h
    rw [hl, hsc] at h
    cases h
    rfl
  rw [hdb']
  unfold run_ops_until create_element_ops
  rw [List.take_length]
  simp only [List.foldl_append, List.foldl_cons, List.foldl_nil, apply_op]
  have : ∀ (rules : List AccessRule) (s : SessionState),
      ((rules.map SessionOp.addRule).foldl apply_op s) =
        { s with tx := { s.tx with access_rules := s.tx.access_rules ++ rules } } := by
    intro rules
    induction rules with
    | nil => intro s; simp
    | cons r rest ih =>
      intro s
      rw [List.map_cons, List.foldl_cons, ih]
      simp [apply_op, List.append_assoc]
  rw [this]

/-! ## Baseline provisioning (`app/database/init_db.py`)

`init_db` runs in one session; `_get_or_create` / the user loop /
`_create_access_rule_if_not_exists` each query before inserting (the session
autoflushes, so an insert is visible to every later query of the same run),
and a single commit ends the run.  The generic `_get_or_create(session,
model, **kwargs)` is specialised here per model class, as its Python call
sites instantiate it; serial primary keys are modelled as max-id-plus-one. -/

def max_role_id (db : DB) : Int := db.roles.foldl (fun m r => max m r.id) 0

def max_user_id (db : DB) : Int := db.users.foldl (fun m u => max m u.id) 0

/-- The only failure provisioning can raise in this model:
`scalar_one_or_none` found several rows. -/
inductive InitError where
  | multipleResults : InitError
deriving DecidableEq, Repr

def roles_named (db : DB) (n : String) : List Role :=
  db.roles.filter (fun r => r.name == n)

def users_with_email (db : DB) (e : String) : List User :=
  db.users.filter (fun u => u.email == e)

def elements_named (db : DB) (n : String) : List BusinessElement :=
  db.business_elements.filter (fun e => e.name == n)

def rules_for (db : DB) (role_id element_id : Int) : List AccessRule :=
  db.access_rules.filter (fun r =>
    r.role_id == role_id && r.business_element_id == element_id)

/-- `_get_or_create(session, Role, name=n)` (`init_db.py` lines 9-34). -/
def get_or_create_role (db : DB) (name : String) :
    Except InitError (DB × Role) :=
  match scalar_one_or_none (roles_named db name) with
  | .multiple => .error .multipleResults
  | .one r => .ok (db, r)
  | .empty =>
    let r : Role := { id := max_role_id db + 1, name := name }
    .ok ({ db with roles := db.roles ++ [r] }, r)

/-- `_get_or_create(session, BusinessElement, name=n)`. -/
def get_or_create_element (db : DB) (name : String) :
    Except InitError (DB × BusinessElement) :=
  match scalar_one_or_none (elements_named db name) with
  | .multiple => .error .multipleResults
  | .one e => .ok (db, e)
  | .empty =>
    let e : BusinessElement := { id := max_element_id db + 1, name := name }
    .ok ({ db with business_elements := db.business_elements ++ [e] }, e)

/-- The f-string `f"{role_name}@{role_name}.com"` of the user loop. -/
def default_email (role_name : String) : String :=
  role_name ++ "@" ++ role_name ++ ".com"

/-- One iteration of the user loop of `init_db` (lines 83-100): look the
user up by the default email and create it — active, named
`role_name.title()`, password hashed by the external utility — only when
absent. -/
def ensure_default_user (db : DB) (hash : String → String) (role_name : String)
    (role_id : Int) : Except InitError DB :=
  match scalar_one_or_none (users_with_email db (default_email role_name)) with
  | .multiple => .error .multipleResults
  | .one _ => .ok db
  | .empty =>
    .ok { db with users := db.users ++
      [{ id := max_user_id db + 1, email := default_email role_name,
         hashed_password := hash role_name, name := role_name.capitalize,
         is_active := true, role_id := role_id }] }

/-- One `permissions` dict of the `permissions_map` (`init_db.py`
lines 103-131). -/
structure PermissionSet where
  read_permission : Bool
  read_all_permission : Bool
  create_permission : Bool
  update_permission : Bool
  update_all_permission : Bool
  delete_permission : Bool
  delete_all_permission : Bool
deriving DecidableEq, Repr

def admin_permissions : PermissionSet :=
  ⟨true, true, true, true, true, true, true⟩

def manager_permissions : PermissionSet :=
  ⟨true, true, true, true, false, false, false⟩

def user_permissions : PermissionSet :=
  ⟨true, false, false, false, false, false, false⟩

/-- `AccessRule(role_id=..., business_element_id=..., **permissions)`. -/
def rule_of_permissions (rule_id role_id element_id : Int)
    (p : PermissionSet) : AccessRule :=
  { id := rule_id, business_element_id := element_id, role_id := role_id,
    read_permission := p.read_permission,
    read_all_permission := p.read_all_permission,
    create_permission := p.create_permission,
    update_permission := p.update_permission,
    update_all_permission := p.update_all_permission,
    delete_permission := p.delete_permission,
    delete_all_permission := p.delete_all_permission }

/-- `_create_access_rule_if_not_exists` (`init_db.py` lines 37-64): query
the rule by `(role_id, business_element_id)` and insert only when absent;
an existing rule is left untouched whatever its flags. -/
def create_access_rule_if_not_exists (db : DB) (role_id element_id : Int)
    (p : PermissionSet) : Except InitError DB :=
  match scalar_one_or_none (rules_for db role_id element_id) with
  | .multiple => .error .multipleResults
  | .one _ => .ok db
  | .empty =>
    .ok { db with access_rules := db.access_rules ++
      [rule_of_permissions (max_rule_id db + 1) role_id element_id p] }

/-- `init_db` (`init_db.py` lines 67-159): the three canonical roles, the
three default users, the two canonical elements, then the six access rules
in the source's loop order, and one final commit. -/
def init_db (db : DB) (hash : String → String) : Except InitError DB :=
  (get_or_create_role db "admin").bind fun ar =>
  (get_or_create_role ar.1 "manager").bind fun mr =>
  (get_or_create_role mr.1 "user").bind fun ur =>
  (ensure_default_user ur.1 hash "admin" ar.2.id).bind fun d1 =>
  (ensure_default_user d1 hash "manager" mr.2.id).bind fun d2 =>
  (ensure_default_user d2 hash "user" ur.2.id).bind fun d3 =>
  (get_or_create_element d3 "users").bind fun ue =>
  (get_or_create_element ue.1 "business_elements").bind fun be =>
  (create_access_rule_if_not_exists be.1 ar.2.id ue.2.id admin_permissions).bind fun r1 =>
  (create_access_rule_if_not_exists r1 mr.2.id ue.2.id manager_permissions).bind fun r2 =>
  (create_access_rule_if_not_exists r2 ur.2.id ue.2.id user_permissions).bind fun r3 =>
  (create_access_rule_if_not_exists r3 ar.2.id be.2.id admin_permissions).bind fun r4 =>
  (create_access_rule_if_not_exists r4 mr.2.id be.2.id manager_permissions).bind fun r5 =>
  (create_access_rule_if_not_exists r5 ur.2.id be.2.id user_permissions).bind fun r6 =>
  .ok r6

theorem except_bind_ok {ε α β : Type} {x : Except ε α} {f : α → Except ε β}
    {b : β} (h : x.bind f = .ok b) : ∃ a, x = .ok a ∧ f a = .ok b := by
  cases x with
  | error e => simp [Except.bind] at h
  | ok a => exact ⟨a, rfl, h⟩

theorem roles_named_congr {db db' : DB} (h : db'.roles = db.roles)
    (n : String) : roles_named db' n = roles_named db n := by
  unfold roles_named; rw [h]

theorem users_with_email_congr {db db' : DB} (h : db'.users = db.users)
    (e : String) : users_with_email db' e = users_with_email db e := by
  unfold users_with_email; rw [h]

theorem elements_named_congr {db db' : DB}
    (h : db'.business_elements = db.business_elements) (n : String) :
    elements_named db' n = elements_named db n := by
  unfold elements_named; rw [h]

theorem rules_for_congr {db db' : DB} (h : db'.access_rules = db.access_rules)
    (rid eid : Int) : rules_for db' rid eid = rules_for db rid eid := by
  unfold rules_for; rw [h]

theorem get_or_create_role_spec {db db' : DB} {n : String} {r : Role}
    (h : get_or_create_role db n = .ok (db', r)) :
    db'.users = db.users ∧ db'.business_elements = db.business_elements ∧
    db'.access_rules = db.access_rules ∧
    roles_named db' n = [r] ∧
    ∀ m : String, m ≠ n → roles_named db' m = roles_named db m := by
  unfold get_or_create_role at h
  rcases hs : scalar_one_or_none (roles_named db n) with _ | a | _ <;> rw [hs] at h
  · -- row absent: the role is created and appended
    simp only [Except.ok.injEq, Prod.mk.injEq] at h
    obtain ⟨hdb, hr⟩ := h
    have hnil : roles_named db n = [] := scalar_one_or_none_eq_empty hs
    subst hdb hr
    refine ⟨rfl, rfl, rfl, ?_, ?_⟩
    · unfold roles_named at hnil ⊢
      simp [List.filter_append, hnil]
    · intro m hm
      unfold roles_named
      simp [List.filter_append, beq_eq_false_iff_ne.mpr (fun hc => hm hc.symm)]
  · -- row found: nothing changes
    simp only [Except.ok.injEq, Prod.mk.injEq] at h
    obtain ⟨hdb, hr⟩ := h
    subst hdb hr
    exact ⟨rfl, rfl, rfl, scalar_one_or_none_eq_one hs, fun _ _ => rfl⟩
  · exact Except.noConfusion h

theorem get_or_create_element_spec {db db' : DB} {n : String}
    {e : BusinessElement}
    (h : get_or_create_element db n = .ok (db', e)) :
    db'.roles = db.roles ∧ db'.users = db.users ∧
    db'.access_rules = db.access_rules ∧
    elements_named db' n = [e] ∧
    ∀ m : String, m ≠ n → elements_named db' m = elements_named db m := by
  unfold get_or_create_element at h
  rcases hs : scalar_one_or_none (elements_named db n) with _ | a | _ <;> rw [hs] at h
  · simp only [Except.ok.injEq, Prod.mk.injEq] at h
    obtain ⟨hdb, hr⟩ := h
    have hnil : elements_named db n = [] := scalar_one_or_none_eq_empty hs
    subst hdb hr
    refine ⟨rfl, rfl, rfl, ?_, ?_⟩
    · unfold elements_named at hnil ⊢
      simp [List.filter_append, hnil]
    · intro m hm
      unfold elements_named
      simp [List.filter_append, beq_eq_false_iff_ne.mpr (fun hc => hm hc.symm)]
  · simp only [Except.ok.injEq, Prod.mk.injEq] at h
    obtain ⟨hdb, hr⟩ := h
    subst hdb hr
    exact ⟨rfl, rfl, rfl, scalar_one_or_none_eq_one hs, fun _ _ => rfl⟩
  · exact Except.noConfusion h

theorem ensure_default_user_spec {db db' : DB} {hash : String → String}
    {rn : String} {rid : Int}
    (h : ensure_default_user db hash rn rid = .ok db') :
    db'.roles = db.roles ∧ db'.business_elements = db.business_elements ∧
    db'.access_rules = db.access_rules ∧
    (∃ x, users_with_email db' (default_email rn) = [x]) ∧
    ∀ e : String, e ≠ default_email rn →
      users_with_email db' e = users_with_email db e := by
  unfold ensure_default_user at h
  rcases hs : scalar_one_or_none (users_with_email db (default_email rn))
    with _ | a | _ <;> rw [hs] at h
  · simp only [Except.ok.injEq] at h
    have hnil : users_with_email db (default_email rn) = [] :=
      scalar_one_or_none_eq_empty hs
    subst h
    refine ⟨rfl, rfl, rfl,
      ⟨{ id := max_user_id db + 1, email := default_email rn,
         hashed_password := hash rn, name := rn.capitalize,
         is_active := true, role_id := rid }, ?_⟩, ?_⟩
    · unfold users_with_email at hnil ⊢
      simp [List.filter_append, hnil]
    · intro e he
      unfold users_with_email
      simp [List.filter_append, beq_eq_false_iff_ne.mpr (fun hc => he hc.symm)]
  · simp only [Except.ok.injEq] at h
    subst h
    exact ⟨rfl, rfl, rfl, ⟨a, scalar_one_or_none_eq_one hs⟩, fun _ _ => rfl⟩
  · exact Except.noConfusion h

theorem create_access_rule_spec {db db' : DB} {rid eid : Int}
    {p : PermissionSet}
    (h : create_access_rule_if_not_exists db rid eid p = .ok db') :
    db'.roles = db.roles ∧ db'.users = db.users ∧
    db'.business_elements = db.business_elements ∧
    (∃ x, rules_for db' rid eid = [x]) ∧
    ∀ rid' eid' x, rules_for db rid' eid' = [x] →
      rules_for db' rid' eid' = [x] := by
  unfold create_access_rule_if_not_exists at h
  rcases hs : scalar_one_or_none (rules_for db rid eid) with _ | a | _ <;> rw [hs] at h
  · simp only [Except.ok.injEq] at h
    have hnil : rules_for db rid eid = [] := scalar_one_or_none_eq_empty hs
    subst h
    refine ⟨rfl, rfl, rfl,
      ⟨rule_of_permissions (max_rule_id db + 1) rid eid p, ?_⟩, ?_⟩
    · unfold rules_for at hnil ⊢
      simp [List.filter_append, hnil, rule_of_permissions]
    · intro rid' eid' x hx
      have hne : ¬(rid = rid' ∧ eid = eid') := by
        rintro ⟨rfl, rfl⟩
        rw [hnil] at hx
        cases hx
      have hfalse : (((rule_of_permissions (max_rule_id db + 1) rid eid p).role_id == rid') &&
          ((rule_of_permissions (max_rule_id db + 1) rid eid p).business_element_id == eid')) = false := by
        rcases Decidable.em (rid = rid') with hr | hr
        · rcases Decidable.em (eid = eid') with he | he
          · exact absurd ⟨hr, he⟩ hne
          · simp [rule_of_permissions, beq_eq_false_iff_ne.mpr he]
        · simp [rule_of_permissions, beq_eq_false_iff_ne.mpr hr]
      unfold rules_for at hx ⊢
      simp only [List.filter_append, hx]
      simp [hfalse]
  · simp only [Except.ok.injEq] at h
    subst h
    exact ⟨rfl, rfl, rfl, ⟨a, scalar_one_or_none_eq_one hs⟩, fun _ _ _ hx => hx⟩
  · exact Except.noConfusion h

/-- A database in which every canonical row of `init_db` is already present,
exactly once: the three roles, the three default users, the two elements,
and one rule per induced (role, element) pair. -/
def well_provisioned (db : DB) : Prop :=
  ∃ ra rm ru : Role, ∃ eu eb : BusinessElement,
    roles_named db "admin" = [ra] ∧
    roles_named db "manager" = [rm] ∧
    roles_named db "user" = [ru] ∧
    (∃ x, users_with_email db (default_email "admin") = [x]) ∧
    (∃ x, users_with_email db (default_email "manager") = [x]) ∧
    (∃ x, users_with_email db (default_email "user") = [x]) ∧
    elements_named db "users" = [eu] ∧
    elements_named db "business_elements" = [eb] ∧
    (∃ x, rules_for db ra.id eu.id = [x]) ∧
    (∃ x, rules_for db rm.id eu.id = [x]) ∧
    (∃ x, rules_for db ru.id eu.id = [x]) ∧
    (∃ x, rules_for db ra.id eb.id = [x]) ∧
    (∃ x, rules_for db rm.id eb.id = [x]) ∧
    (∃ x, rules_for db ru.id eb.id = [x])

theorem init_db_no_op_of_well_provisioned (db : DB) (hash : String → String)
    (h : well_provisioned db) : init_db db hash = .ok db := by
  obtain ⟨ra, rm, ru, eu, eb, h1, h2, h3, ⟨ua, hua⟩, ⟨um, hum⟩, ⟨uu, huu⟩,
    h4, h5, ⟨x1, hx1⟩, ⟨x2, hx2⟩, ⟨x3, hx3⟩, ⟨x4, hx4⟩, ⟨x5, hx5⟩, ⟨x6, hx6⟩⟩ := h
  have e1 : get_or_create_role db "admin" = .ok (db, ra) := by
    unfold get_or_create_role; simp only [h1, scalar_one_or_none]
  have e2 : get_or_create_role db "manager" = .ok (db, rm) := by
    unfold get_or_create_role; simp only [h2, scalar_one_or_none]
  have e3 : get_or_create_role db "user" = .ok (db, ru) := by
    unfold get_or_create_role; simp only [h3, scalar_one_or_none]
  have e4 : ensure_default_user db hash "admin" ra.id = .ok db := by
    unfold ensure_default_user; simp only [hua, scalar_one_or_none]
  have e5 : ensure_default_user db hash "manager" rm.id = .ok db := by
    unfold ensure_default_user; simp only [hum, scalar_one_or_none]
  have e6 : ensure_default_user db hash "user" ru.id = .ok db := by
    unfold ensure_default_user; simp only [huu, scalar_one_or_none]
  have e7 : get_or_create_element db "users" = .ok (db, eu) := by
    unfold get_or_create_element; simp only [h4, scalar_one_or_none]
  have e8 : get_or_create_element db "business_elements" = .ok (db, eb) := by
    unfold get_or_create_element; simp only [h5, scalar_one_or_none]
  have e9 : create_access_rule_if_not_exists db ra.id eu.id admin_permissions
      = .ok db := by
    unfold create_access_rule_if_not_exists; simp only [hx1, scalar_one_or_none]
  have e10 : create_access_rule_if_not_exists db rm.id eu.id manager_permissions
      = .ok db := by
    unfold create_access_rule_if_not_exists; simp only [hx2, scalar_one_or_none]
  have e11 : create_access_rule_if_not_exists db ru.id eu.id user_permissions
      = .ok db := by
    unfold create_access_rule_if_not_exists; simp only [hx3, scalar_one_or_none]
  have e12 : create_access_rule_if_not_exists db ra.id eb.id admin_permissions
      = .ok db := by
    unfold create_access_rule_if_not_exists; simp only [hx4, scalar_one_or_none]
  have e13 : create_access_rule_if_not_exists db rm.id eb.id manager_permissions
      = .ok db := by
    unfold create_access_rule_if_not_exists; simp only [hx5, scalar_one_or_none]
  have e14 : create_access_rule_if_not_exists db ru.id eb.id user_permissions
      = .ok db := by
    unfold create_access_rule_if_not_exists; simp only [hx6, scalar_one_or_none]
  unfold init_db
  simp only [e1, e2, e3, e4, e5, e6, e7, e8, e9, e10, e11, e12, e13, e14,
    Except.bind]

theorem init_db_well_provisioned {db db1 : DB} {hash : String → String}
    (h : init_db db hash = .ok db1) : well_provisioned db1 := by
  unfold init_db at h
  obtain ⟨ar, ha, h⟩ := except_bind_ok h
  obtain ⟨mr, hb, h⟩ := except_bind_ok h
  obtain ⟨ur, hc, h⟩ := except_bind_ok h
  obtain ⟨d1, hd1, h⟩ := except_bind_ok h
  obtain ⟨d2, hd2, h⟩ := except_bind_ok h
  obtain ⟨d3, hd3, h⟩ := except_bind_ok h
  obtain ⟨ue, he1, h⟩ := except_bind_ok h
  obtain ⟨be, he2, h⟩ := except_bind_ok h
  obtain ⟨r1, hr1, h⟩ := except_bind_ok h
  obtain ⟨r2, hr2, h⟩ := except_bind_ok h
  obtain ⟨r3, hr3, h⟩ := except_bind_ok h
  obtain ⟨r4, hr4, h⟩ := except_bind_ok h
  obtain ⟨r5, hr5, h⟩ := except_bind_ok h
  obtain ⟨r6, hr6, h⟩ := except_bind_ok h
  have hdb1 : r6 = db1 := by simpa using h
  subst hdb1
  obtain ⟨u1, b1, a1, rA, pA⟩ := get_or_create_role_spec ha
  obtain ⟨u2, b2, a2, rM, pM⟩ := get_or_create_role_spec hb
  obtain ⟨u3, b3, a3, rU, pU⟩ := get_or_create_role_spec hc
  obtain ⟨ro4, b4, a4, eA, pUA⟩ := ensure_default_user_spec hd1
  obtain ⟨ro5, b5, a5, eM, pUM⟩ := ensure_default_user_spec hd2
  obtain ⟨ro6, b6, a6, eU, pUU⟩ := ensure_default_user_spec hd3
  obtain ⟨ro7, u7, a7, elU, pEU⟩ := get_or_create_element_spec he1
  obtain ⟨ro8, u8, a8, elB, pEB⟩ := get_or_create_element_spec he2
  obtain ⟨rr1, uu1, bb1, q1, p1⟩ := create_access_rule_spec hr1
  obtain ⟨rr2, uu2, bb2, q2, p2⟩ := create_access_rule_spec hr2
  obtain ⟨rr3, uu3, bb3, q3, p3⟩ := create_access_rule_spec hr3
  obtain ⟨rr4, uu4, bb4, q4, p4⟩ := create_access_rule_spec hr4
  obtain ⟨rr5, uu5, bb5, q5, p5⟩ := create_access_rule_spec hr5
  obtain ⟨rr6, uu6, bb6, q6, p6⟩ := create_access_rule_spec hr6
  -- the roles table does not change after the three role steps
  have hroles : r6.roles = ur.1.roles := by
    rw [rr6, rr5, rr4, rr3, rr2, rr1, ro8, ro7, ro6, ro5, ro4]
  -- the users table does not change after the three user steps
  have husers : r6.users = d3.users := by
    rw [uu6, uu5, uu4, uu3, uu2, uu1, u8, u7]
  -- the elements table does not change after the two element steps
  have helems : r6.business_elements = be.1.business_elements := by
    rw [bb6, bb5, bb4, bb3, bb2, bb1]
  have hAdmin : roles_named r6 "admin" = [ar.2] := by
    rw [roles_named_congr hroles, pU "admin" (by decide), pM "admin" (by decide)]
    exact rA
  have hManager : roles_named r6 "manager" = [mr.2] := by
    rw [roles_named_congr hroles, pU "manager" (by decide)]
    exact rM
  have hUser : roles_named r6 "user" = [ur.2] := by
    rw [roles_named_congr hroles]
    exact rU
  obtain ⟨xa, hxa⟩ := eA
  obtain ⟨xm, hxm⟩ := eM
  obtain ⟨xu, hxu⟩ := eU
  have hUA : users_with_email r6 (default_email "admin") = [xa] := by
    rw [users_with_email_congr husers, pUU _ (by decide), pUM _ (by decide)]
    exact hxa
  have hUM : users_with_email r6 (default_email "manager") = [xm] := by
    rw [users_with_email_congr husers, pUU _ (by decide)]
    exact hxm
  have hUU : users_with_email r6 (default_email "user") = [xu] := by
    rw [users_with_email_congr husers]
    exact hxu
  have hEU : elements_named r6 "users" = [ue.2] := by
    rw [elements_named_congr helems, pEB _ (by decide)]
    exact elU
  have hEB : elements_named r6 "business_elements" = [be.2] := by
    rw [elements_named_congr helems]
    exact elB
  obtain ⟨y1, hy1⟩ := q1
  obtain ⟨y2, hy2⟩ := q2
  obtain ⟨y3, hy3⟩ := q3
  obtain ⟨y4, hy4⟩ := q4
  obtain ⟨y5, hy5⟩ := q5
  obtain ⟨y6, hy6⟩ := q6
  refine ⟨ar.2, mr.2, ur.2, ue.2, be.2, hAdmin, hManager, hUser,
    ⟨xa, hUA⟩, ⟨xm, hUM⟩, ⟨xu, hUU⟩, hEU, hEB,
    ⟨y1, p6 _ _ _ (p5 _ _ _ (p4 _ _ _ (p3 _ _ _ (p2 _ _ _ hy1))))⟩,
    ⟨y2, p6 _ _ _ (p5 _ _ _ (p4 _ _ _ (p3 _ _ _ hy2)))⟩,
    ⟨y3, p6 _ _ _ (p5 _ _ _ (p4 _ _ _ hy3))⟩,
    ⟨y4, p6 _ _ _ (p5 _ _ _ hy4)⟩,
    ⟨y5, p6 _ _ _ hy5⟩,
    ⟨y6, hy6⟩⟩

/-- `b` is `a` with at most its seven flag columns changed: the surrogate id
and the two foreign keys are intact. -/
def rules_edit (a b : AccessRule) : Prop :=
  b.id = a.id ∧ b.role_id = a.role_id ∧
  b.business_element_id = a.business_element_id

/-- `db2` is `db1` after an operator edited the flags of some existing
access rules: the other three tables are untouched, and the rules table has
the same rows up to flag edits. -/
def flag_edit_of (db1 db2 : DB) : Prop :=
  db2.roles = db1.roles ∧ db2.users = db1.users ∧
  db2.business_elements = db1.business_elements ∧
  List.Forall₂ rules_edit db1.access_rules db2.access_rules

theorem filter_length_eq_of_forall₂ {α β : Type} {R : α → β → Prop}
    {l1 : List α} {l2 : List β} (h : List.Forall₂ R l1 l2)
    {p : α → Bool} {q : β → Bool} (hpq : ∀ a b, R a b → p a = q b) :
    (l1.filter p).length = (l2.filter q).length := by
  induction h with
  | nil => rfl
  | cons hab tail ih =>
    rename_i a b l1' l2'
    rw [List.filter_cons, List.filter_cons, ← hpq a b hab]
    cases p a <;> simp [ih]

theorem rules_for_edit_singleton {db1 db2 : DB}
    (hrules : List.Forall₂ rules_edit db1.access_rules db2.access_rules)
    {rid eid : Int} (h : ∃ x, rules_for db1 rid eid = [x]) :
    ∃ x, rules_for db2 rid eid = [x] := by
  obtain ⟨x, hx⟩ := h
  have hlen : (rules_for db1 rid eid).length = (rules_for db2 rid eid).length := by
    unfold rules_for
    exact filter_length_eq_of_forall₂ hrules (fun a b hab => by
      obtain ⟨_, h2, h3⟩ := hab
      simp [h2, h3])
  rw [hx] at hlen
  exact List.length_eq_one.mp hlen.symm

theorem well_provisioned_flag_edit {db1 db2 : DB} (hf : flag_edit_of db1 db2)
    (hw : well_provisioned db1) : well_provisioned db2 := by
  obtain ⟨hro, hus, hbe, hrules⟩ := hf
  obtain ⟨ra, rm, ru, eu, eb, h1, h2, h3, h4, h5, h6, h7, h8,
    x1, x2, x3, x4, x5, x6⟩ := hw
  refine ⟨ra, rm, ru, eu, eb, ?_, ?_, ?_, ?_, ?_, ?_, ?_, ?_,
    rules_for_edit_singleton hrules x1, rules_for_edit_singleton hrules x2,
    rules_for_edit_singleton hrules x3, rules_for_edit_singleton hrules x4,
    rules_for_edit_singleton hrules x5, rules_for_edit_singleton hrules x6⟩
  · rw [roles_named_congr hro]; exact h1
  · rw [roles_named_congr hro]; exact h2
  · rw [roles_named_congr hro]; exact h3
  · rw [users_with_email_congr hus]; exact h4
  · rw [users_with_email_congr hus]; exact h5
  · rw [users_with_email_congr hus]; exact h6
  · rw [elements_named_congr hbe]; exact h7
  · rw [elements_named_congr hbe]; exact h8

/-- C9: provisioning is idempotent.  If a first run of `init_db` succeeded,
then a second run — with any password hashing, from the first run's result
or from that result with the flags of existing rules edited by an operator —
returns its input unchanged: no new roles, users, elements or rules, and no
existing rule modified. -/
theorem init_db_idempotent (db db1 db2 : DB) (hash1 hash2 : String → String)
    (h1 : init_db db hash1 = .ok db1) (h2 : flag_edit_of db1 db2) :
    init_db db2 hash2 = .ok db2 :=
  init_db_no_op_of_well_provisioned db2 hash2
    (well_provisioned_flag_edit h2 (init_db_well_provisioned h1))

/-- A concrete already-provisioned database whose six rules carry
operator-edited (non-default) flags. -/
def baseline_db : DB :=
  { roles := [⟨1, "admin"⟩, ⟨2, "manager"⟩, ⟨3, "user"⟩],
    users := [⟨1, "admin@admin.com", "x", "Admin", true, 1⟩,
              ⟨2, "manager@manager.com", "x", "Manager", true, 2⟩,
              ⟨3, "user@user.com", "x", "User", true, 3⟩],
    business_elements := [⟨1, "users"⟩, ⟨2, "business_elements"⟩],
    access_rules :=
      [⟨1, 1, 1, false, false, false, false, false, false, false⟩,
       ⟨2, 1, 2, false, false, false, false, false, false, false⟩,
       ⟨3, 1, 3, false, false, false, false, false, false, false⟩,
       ⟨4, 2, 1, false, false, false, false, false, false, false⟩,
       ⟨5, 2, 2, false, false, false, false, false, false, false⟩,
       ⟨6, 2, 3, false, false, false, false, false, false, false⟩] }

/-- `baseline_db` with one more operator edit: the first rule's read flag
flipped on. -/
def edited_db : DB :=
  { baseline_db with access_rules :=
      [⟨1, 1, 1, true, false, false, false, false, false, false⟩,
       ⟨2, 1, 2, false, false, false, false, false, false, false⟩,
       ⟨3, 1, 3, false, false, false, false, false, false, false⟩,
       ⟨4, 2, 1, false, false, false, false, false, false, false⟩,
       ⟨5, 2, 2, false, false, false, false, false, false, false⟩,
       ⟨6, 2, 3, false, false, false, false, false, false, false⟩] }

/-- Witness for C9: a second run over the edited provisioned database — with
a different hash function — changes nothing. -/
theorem init_db_idempotent_witness :
    init_db edited_db (fun s => s ++ "#") = .ok edited_db :=
  init_db_idempotent baseline_db baseline_db edited_db
    (fun s => s) (fun s => s ++ "#") (by rfl)
    ⟨rfl, rfl, rfl,
      .cons ⟨rfl, rfl, rfl⟩ (.cons ⟨rfl, rfl, rfl⟩ (.cons ⟨rfl, rfl, rfl⟩
        (.cons ⟨rfl, rfl, rfl⟩ (.cons ⟨rfl, rfl, rfl⟩
          (.cons ⟨rfl, rfl, rfl⟩ .nil)))))⟩

end RBAC
